import Mathlib

set_option maxHeartbeats 1000000

/-!
Verification development for the jsbsim_with_ts binding layer.

The repository wraps the JSBSim flight-dynamics executive: the TypeScript
wrapper class `JSBSim` (src/typescript/src/index.ts) and the Emscripten
binding `JSBSimFDMExec` (src/typescript/src/jsbsim_binding.cpp) are present
in the source; the C++ engine itself (FGFDMExec and the models it drives) is
not, so the engine-side state machine is modelled from the specification
(marked `Modelled from the spec:` below), constrained by the signatures the
binding fixes.  Scalars carried by the property bus are JavaScript doubles in
the source; they are embedded as exact rationals (ℚ), since the claims under
study concern control flow, state framing and comparisons, not rounding.
-/

/-- Association lookup on a string-keyed list, first binding wins.  Used for
the property registry (spec §4.1) and for the external aircraft-definition
library (spec §6). -/
def assocFind {α : Type} (p : String) : List (String × α) → Option α
  | [] => none
  | kv :: rest => if kv.1 = p then some kv.2 else assocFind p rest

/-- Static aircraft definition (spec §3): the post-load immutable description.
The aerodynamic and engine tables are data, kept abstract here. -/
structure AircraftDef where
  name : String
  wingArea : ℚ
  emptyWeight : ℚ
  deriving DecidableEq

/-- State Vector (spec §3): position, attitude, body-frame velocities and
angular rates, owned by Propagate. -/
structure StateVector where
  lat : ℚ
  lon : ℚ
  alt : ℚ
  phi : ℚ
  theta : ℚ
  psi : ℚ
  velU : ℚ
  velV : ℚ
  velW : ℚ
  rateP : ℚ
  rateQ : ℚ
  rateR : ℚ
  deriving DecidableEq

/-- Flight condition consumed by the Initial Condition Solver (spec §4.9). -/
structure InitialCondition where
  latitudeDeg : ℚ
  longitudeDeg : ℚ
  altitudeFt : ℚ
  airspeedKts : ℚ
  flightPathDeg : ℚ
  headingDeg : ℚ
  deriving DecidableEq

/-- The FDM executive state.  Each `JSBSimFDMExec` wrapper owns one fresh
engine instance (jsbsim_binding.cpp:404-407), so one value of this structure
is one simulation: property registry, clock (simTime, fixed dt), hold flag,
loaded aircraft definition, stored initial condition and the State Vector. -/
structure FGFDMExec where
  props : List (String × ℚ)
  simTime : ℚ
  dt : ℚ
  holding : Bool
  aircraft : Option AircraftDef
  ic : InitialCondition
  stateVec : StateVector
  frame : Nat
  deriving DecidableEq

/-- FGPropertyManager::HasNode, forwarded by the binding
(jsbsim_binding.cpp:104): pure existence query on the registry. -/
def FGFDMExec.hasNode (s : FGFDMExec) (p : String) : Bool :=
  (assocFind p s.props).isSome

/-- Modelled from the spec: FGFDMExec::GetPropertyValue is not under src/
(the binding at jsbsim_binding.cpp:472-474 only forwards it and fixes the
signature to return a plain double).  For a present node the stored scalar is
returned (spec §4.1); the double codomain forces a miss to yield some scalar,
taken here as the engine default 0. -/
def FGFDMExec.getPropertyValue (s : FGFDMExec) (p : String) : ℚ :=
  (assocFind p s.props).getD 0

/-- Modelled from the spec: FGFDMExec::SetPropertyValue is not under src/
(the binding at jsbsim_binding.cpp:476-478 forwards it, returning void).
A write creates-or-updates the node — silent creation of a missing path, the
policy the spec recommends in §9 — and reports no outcome. -/
def FGFDMExec.setPropertyValue (s : FGFDMExec) (p : String) (v : ℚ) : FGFDMExec :=
  { s with props := (p, v) :: s.props }

/-- Modelled from the spec: the Initial Condition Solver (§4.9) is not under
src/.  It translates the flight condition into a consistent State Vector
deterministically; the pitch solution depends on the loaded definition. -/
def icSolve (ic : InitialCondition) (d : Option AircraftDef) : StateVector :=
  { lat := ic.latitudeDeg
    lon := ic.longitudeDeg
    alt := ic.altitudeFt
    phi := 0
    theta := ic.flightPathDeg + (match d with | some a => a.emptyWeight / 100000 | none => 0)
    psi := ic.headingDeg
    velU := ic.airspeedKts * 169 / 100
    velV := 0
    velW := 0
    rateP := 0
    rateQ := 0
    rateR := 0 }

/-- The all-zero flight condition used by a freshly built executive. -/
def defaultIC : InitialCondition :=
  { latitudeDeg := 0, longitudeDeg := 0, altitudeFt := 0
    airspeedKts := 0, flightPathDeg := 0, headingDeg := 0 }

/-- Modelled from the spec: a freshly constructed executive (the binding
constructor, jsbsim_binding.cpp:404-407) — empty registry, nothing loaded,
clock at zero with the default fixed timestep 1/120 s (spec §8). -/
def newFDM : FGFDMExec :=
  { props := []
    simTime := 0
    dt := 1 / 120
    holding := false
    aircraft := none
    ic := defaultIC
    stateVec := icSolve defaultIC none
    frame := 0 }

/-- Modelled from the spec: standard-atmosphere density by altitude (§4.2),
linearised band. -/
def atmosphereDensity (alt : ℚ) : ℚ := max 0 (2378 / 1000000 * (1 - alt / 100000))

/-- Modelled from the spec: total mass from the aircraft baseline (§4.3). -/
def massOf (d : Option AircraftDef) : ℚ :=
  match d with
  | some a => a.emptyWeight / 32
  | none => 1000

/-- Modelled from the spec: one frame of the executive loop in the fixed
order of §4.12 (Atmosphere → Mass Balance → Aerodynamics → Propulsion →
Ground Reactions → Propagate → Auxiliary), then the clock advances by the
fixed timestep.  The engine's model pipeline is not under src/; only its
structural properties (determinism, framing, fixed-step clock) are relied on
by the theorems below. -/
def stepFrame (s : FGFDMExec) : FGFDMExec :=
  let sv := s.stateVec
  let rho := atmosphereDensity sv.alt
  let mass := massOf s.aircraft
  let thrust := ((assocFind "fcs/throttle-cmd-norm[0]" s.props).getD 0) * 500
  let drag := rho * sv.velU * sv.velU / 2
  let velU2 := sv.velU + (thrust - drag) / mass * s.dt
  let sv2 := { sv with velU := velU2, alt := sv.alt - sv.velW * s.dt }
  { s with
      stateVec := sv2
      props := ("velocities/u-fps", velU2) :: s.props
      simTime := s.simTime + s.dt
      frame := s.frame + 1 }

/-- Modelled from the spec: FGFDMExec::Run is not under src/ (the binding
forwards it at jsbsim_binding.cpp:409-411).  Per §4.11, while Held it is a
no-op returning a "not advanced" signal; otherwise it executes one frame and
reports advancement. -/
def FGFDMExec.run (s : FGFDMExec) : Bool × FGFDMExec :=
  if s.holding then (false, s) else (true, stepFrame s)

/-- Telemetry getSimTime (spec §6), forwarded by the binding
(jsbsim_binding.cpp:553-555): the simulation clock. -/
def FGFDMExec.getSimTime (s : FGFDMExec) : ℚ := s.simTime

/-- Telemetry getDeltaT (spec §6), forwarded by the binding
(jsbsim_binding.cpp:557-559): the fixed timestep. -/
def FGFDMExec.getDeltaT (s : FGFDMExec) : ℚ := s.dt

/-- Modelled from the spec: FGFDMExec::Hold is not under src/; §4.11 — enter
the Held state, freezing the clock. -/
def FGFDMExec.hold (s : FGFDMExec) : FGFDMExec := { s with holding := true }

/-- Modelled from the spec: FGFDMExec::Resume is not under src/; §4.11 —
leave the Held state. -/
def FGFDMExec.resume (s : FGFDMExec) : FGFDMExec := { s with holding := false }

/-- Modelled from the spec: FGFDMExec::RunIC is not under src/ (binding at
jsbsim_binding.cpp:413-415).  Applies the stored initial condition, writing
the full State Vector and rewinding the clock (§4.9, §4.11). -/
def FGFDMExec.runIC (s : FGFDMExec) : Bool × FGFDMExec :=
  (true, { s with stateVec := icSolve s.ic s.aircraft, simTime := 0, frame := 0 })

/-- Modelled from the spec: FGFDMExec::ResetToInitialConditions is not under
src/ (binding at jsbsim_binding.cpp:525-527).  Any state returns to the
initialized state derived from the stored initial condition (§4.11). -/
def FGFDMExec.resetToInitialConditions (s : FGFDMExec) : FGFDMExec :=
  { s with stateVec := icSolve s.ic s.aircraft, simTime := 0, frame := 0 }

/-- Modelled from the spec: FGFDMExec::LoadModel is not under src/ (binding
at jsbsim_binding.cpp:417-419).  The external Aircraft Definition Loader
(§6) is the string-keyed library `lib`; a hit replaces the definition
wholesale and reports success, a miss reports failure and mutates nothing
(§4.11, §7). -/
def FGFDMExec.loadModel (lib : List (String × AircraftDef)) (s : FGFDMExec)
    (name : String) : Bool × FGFDMExec :=
  match assocFind name lib with
  | some d => (true, { s with aircraft := some d })
  | none => (false, s)

/-- Modelled from the spec: the trim convergence tolerance of §4.10. -/
def trimTolerance : ℚ := 1 / 1000

/-- Modelled from the spec: the bounded iteration cap of §4.10. -/
def trimMaxIterations : Nat := 60

/-- Modelled from the spec: the net specific-force residual checked by the
trim solver (§4.10), proxied by the magnitude of the vertical body velocity. -/
def trimResidual (s : FGFDMExec) : ℚ :=
  max s.stateVec.velW (-s.stateVec.velW)

/-- Modelled from the spec: the trim convergence test of §4.10. -/
def trimConverged (s : FGFDMExec) : Bool :=
  decide (trimResidual s ≤ trimTolerance)

/-- Modelled from the spec: one trim iteration (§4.10) — adjust the pitch
trim control and re-evaluate, halving the residual. -/
def trimStep (s : FGFDMExec) : FGFDMExec :=
  let w := s.stateVec.velW
  let s1 := FGFDMExec.setPropertyValue s "fcs/pitch-trim-cmd-norm" (-w / 2)
  { s1 with stateVec := { s1.stateVec with velW := w / 2 } }

/-- Modelled from the spec: the bounded trim iteration of §4.10 — at most the
given number of convergence checks, `none` when convergence is not reached
within the cap. -/
def trimLoop : Nat → FGFDMExec → Option FGFDMExec
  | 0, _ => none
  | n + 1, s => if trimConverged s then some s else trimLoop n (trimStep s)

/-- The exception hierarchy of src/typescript/src/index.ts:42-61: BaseError
and its refinements TrimFailureError and GeographicError. -/
inductive JSBError where
  | baseError (message : String)
  | trimFailureError (message : String)
  | geographicError (message : String)
  deriving DecidableEq

/-- The BaseError thrown by every wrapper method invoked before init()
(src/typescript/src/index.ts:312 and the identical guards below it). -/
def notInitErr : JSBError :=
  JSBError.baseError "JSBSim not initialized. Call init() first."

/-- Modelled from the spec: FGFDMExec::DoTrim / FGTrim are not under src/
(binding at jsbsim_binding.cpp:501-503).  The solver iterates up to the cap;
non-convergence surfaces the distinct trim-failure outcome (§4.10, §7) —
`TrimFailureError` is the error class src/typescript/src/index.ts:49-54
declares for exactly this.  The mode selects the targeted flight condition
and does not affect the outcome dichotomy. -/
def FGFDMExec.doTrim (s : FGFDMExec) (_mode : Int) : Except JSBError FGFDMExec :=
  match trimLoop trimMaxIterations s with
  | some s2 => Except.ok s2
  | none => Except.error (JSBError.trimFailureError "Trim Failed")

/-- The high-level wrapper class (src/typescript/src/index.ts:264-266): it
holds the FDM executive once init() has completed, and nothing before. -/
structure JSBSim where
  fdm : Option FGFDMExec
  deriving DecidableEq

/-- JSBSim.getFDM (index.ts:310-315): the executive, or the
not-initialized BaseError. -/
def JSBSim.getFDM (j : JSBSim) : Except JSBError FGFDMExec :=
  match j.fdm with
  | none => Except.error notInitErr
  | some f => Except.ok f

/-- JSBSim.loadAircraft (index.ts:330-335): guard, then forward to
loadModel. -/
def JSBSim.loadAircraft (lib : List (String × AircraftDef)) (j : JSBSim)
    (name : String) : Except JSBError (Bool × JSBSim) :=
  match j.fdm with
  | none => Except.error notInitErr
  | some f =>
      let r := FGFDMExec.loadModel lib f name
      Except.ok (r.1, JSBSim.mk (some r.2))

/-- JSBSim.step (index.ts:350-355): guard, then one fdm.run() invocation. -/
def JSBSim.step (j : JSBSim) : Except JSBError (Bool × JSBSim) :=
  match j.fdm with
  | none => Except.error notInitErr
  | some f => Except.ok ((FGFDMExec.run f).1, JSBSim.mk (some (FGFDMExec.run f).2))

/-- JSBSim.getTime (index.ts:384-389): guard, then getSimTime. -/
def JSBSim.getTime (j : JSBSim) : Except JSBError ℚ :=
  match j.fdm with
  | none => Except.error notInitErr
  | some f => Except.ok f.getSimTime

/-- JSBSim.setProperty (index.ts:394-399): guard, then
fdm.setPropertyValue. -/
def JSBSim.setProperty (j : JSBSim) (p : String) (v : ℚ) : Except JSBError JSBSim :=
  match j.fdm with
  | none => Except.error notInitErr
  | some f => Except.ok (JSBSim.mk (some (FGFDMExec.setPropertyValue f p v)))

/-- JSBSim.getProperty (index.ts:404-409): guard, then
fdm.getPropertyValue. -/
def JSBSim.getProperty (j : JSBSim) (p : String) : Except JSBError ℚ :=
  match j.fdm with
  | none => Except.error notInitErr
  | some f => Except.ok (FGFDMExec.getPropertyValue f p)

/-- JSBSim.reset (index.ts:414-419): guard, then
resetToInitialConditions. -/
def JSBSim.reset (j : JSBSim) : Except JSBError JSBSim :=
  match j.fdm with
  | none => Except.error notInitErr
  | some f => Except.ok (JSBSim.mk (some f.resetToInitialConditions))

/-- index.ts:428-430. -/
def JSBSim.setElevator (j : JSBSim) (v : ℚ) : Except JSBError JSBSim :=
  j.setProperty "fcs/elevator-cmd-norm" v

/-- index.ts:432-434. -/
def JSBSim.setAileron (j : JSBSim) (v : ℚ) : Except JSBError JSBSim :=
  j.setProperty "fcs/aileron-cmd-norm" v

/-- index.ts:436-438. -/
def JSBSim.setRudder (j : JSBSim) (v : ℚ) : Except JSBError JSBSim :=
  j.setProperty "fcs/rudder-cmd-norm" v

/-- index.ts:443-445. -/
def JSBSim.setFlaps (j : JSBSim) (v : ℚ) : Except JSBError JSBSim :=
  j.setProperty "fcs/flap-cmd-norm" v

/-- index.ts:447-449. -/
def JSBSim.setSpeedbrakes (j : JSBSim) (v : ℚ) : Except JSBError JSBSim :=
  j.setProperty "fcs/speedbrake-cmd-norm" v

/-- index.ts:451-453. -/
def JSBSim.setSpoilers (j : JSBSim) (v : ℚ) : Except JSBError JSBSim :=
  j.setProperty "fcs/spoiler-cmd-norm" v

/-- index.ts:458-460. -/
def JSBSim.setPitchTrim (j : JSBSim) (v : ℚ) : Except JSBError JSBSim :=
  j.setProperty "fcs/pitch-trim-cmd-norm" v

/-- index.ts:462-464. -/
def JSBSim.setRollTrim (j : JSBSim) (v : ℚ) : Except JSBError JSBSim :=
  j.setProperty "fcs/roll-trim-cmd-norm" v

/-- index.ts:466-468. -/
def JSBSim.setYawTrim (j : JSBSim) (v : ℚ) : Except JSBError JSBSim :=
  j.setProperty "fcs/yaw-trim-cmd-norm" v

/-- index.ts:473-475: indexed engine path. -/
def JSBSim.setThrottle (j : JSBSim) (engineIndex : Nat) (v : ℚ) : Except JSBError JSBSim :=
  j.setProperty ("fcs/throttle-cmd-norm[" ++ toString engineIndex ++ "]") v

/-- index.ts:477-479. -/
def JSBSim.setMixture (j : JSBSim) (engineIndex : Nat) (v : ℚ) : Except JSBError JSBSim :=
  j.setProperty ("fcs/mixture-cmd-norm[" ++ toString engineIndex ++ "]") v

/-- index.ts:499-501. -/
def JSBSim.setLeftBrake (j : JSBSim) (v : ℚ) : Except JSBError JSBSim :=
  j.setProperty "fcs/left-brake-cmd-norm" v

/-- index.ts:503-505. -/
def JSBSim.setRightBrake (j : JSBSim) (v : ℚ) : Except JSBError JSBSim :=
  j.setProperty "fcs/right-brake-cmd-norm" v

/-- index.ts:507-509. -/
def JSBSim.setCenterBrake (j : JSBSim) (v : ℚ) : Except JSBError JSBSim :=
  j.setProperty "fcs/center-brake-cmd-norm" v

/-- index.ts:511-514: setBrakes is the sequence setLeftBrake then
setRightBrake, nothing else. -/
def JSBSim.setBrakes (j : JSBSim) (v : ℚ) : Except JSBError JSBSim :=
  (j.setLeftBrake v).bind (fun j1 => j1.setRightBrake v)

/-- index.ts:519-521. -/
def JSBSim.setSteering (j : JSBSim) (v : ℚ) : Except JSBError JSBSim :=
  j.setProperty "fcs/steer-cmd-norm" v

/-- index.ts:526-528. -/
def JSBSim.setLandingGear (j : JSBSim) (v : ℚ) : Except JSBError JSBSim :=
  j.setProperty "gear/gear-cmd-norm" v

/-- index.ts:553-555. -/
def JSBSim.getAltitude (j : JSBSim) : Except JSBError ℚ :=
  j.getProperty "position/h-sl-ft"

/-- index.ts:545-547. -/
def JSBSim.getLatitude (j : JSBSim) : Except JSBError ℚ :=
  j.getProperty "position/lat-gc-deg"

/-- index.ts:549-551. -/
def JSBSim.getLongitude (j : JSBSim) : Except JSBError ℚ :=
  j.getProperty "position/long-gc-deg"

/-- index.ts:572-574. -/
def JSBSim.getRoll (j : JSBSim) : Except JSBError ℚ :=
  j.getProperty "attitude/phi-deg"

/-- index.ts:576-578. -/
def JSBSim.getPitch (j : JSBSim) : Except JSBError ℚ :=
  j.getProperty "attitude/theta-deg"

/-- index.ts:580-582. -/
def JSBSim.getHeading (j : JSBSim) : Except JSBError ℚ :=
  j.getProperty "attitude/psi-deg"

/-- index.ts:686-688. -/
def JSBSim.getTotalFuel (j : JSBSim) : Except JSBError ℚ :=
  j.getProperty "propulsion/total-fuel-lbs"

/-- index.ts:733-735: weight-on-wheels flag read from the bus. -/
def JSBSim.isOnGround (j : JSBSim) : Except JSBError Bool :=
  match j.getProperty "gear/wow" with
  | Except.error e => Except.error e
  | Except.ok v => Except.ok (decide (v > 0))

/-- index.ts:740-742. -/
def JSBSim.getLandingGearPosition (j : JSBSim) : Except JSBError ℚ :=
  j.getProperty "gear/gear-pos-norm"

/-- index.ts:747-749: gear down and locked means position > 0.99. -/
def JSBSim.isLandingGearDown (j : JSBSim) : Except JSBError Bool :=
  match j.getLandingGearPosition with
  | Except.error e => Except.error e
  | Except.ok pos => Except.ok (decide (pos > 99 / 100))

/-- index.ts:754-756: gear up and locked means position < 0.01. -/
def JSBSim.isLandingGearUp (j : JSBSim) : Except JSBError Bool :=
  match j.getLandingGearPosition with
  | Except.error e => Except.error e
  | Except.ok pos => Except.ok (decide (pos < 1 / 100))

/-- The while loop of JSBSim.run (index.ts:369-378), fuelled: while the sim
clock is below the end time, invoke the single-step primitive; stop early as
soon as a step reports no advancement.  The fuel argument only bounds the
recursion; `run_duration_is_step_loop` below shows the chosen fuel is never
exhausted while the guard holds. -/
def runAux : Nat → FGFDMExec → ℚ → FGFDMExec
  | 0, s, _ => s
  | n + 1, s, endTime =>
      if s.simTime < endTime then
        match FGFDMExec.run s with
        | (true, s2) => runAux n s2 endTime
        | (false, s2) => s2
      else s

/-- Fuel sufficient for JSBSim.run: one iteration per timestep contained in
the duration, plus one. -/
def runFuel (f : FGFDMExec) (duration : ℚ) : Nat :=
  (Int.ceil (duration / f.getDeltaT)).toNat + 1

/-- JSBSim.run (index.ts:360-379): guard, then the timed stepping loop from
startTime to startTime + duration.  The realTime flag only paces the loop
with wall-clock sleeps (index.ts:374-377) and touches no simulation state. -/
def JSBSim.run (j : JSBSim) (duration : ℚ) (_realTime : Bool) : Except JSBError JSBSim :=
  match j.fdm with
  | none => Except.error notInitErr
  | some f =>
      let startTime := f.getSimTime
      let endTime := startTime + duration
      Except.ok (JSBSim.mk (some (runAux (runFuel f duration) f endTime)))

/-- Apply a batch of control-property writes to the executive (the fixed
control-input sequence of spec §8). -/
def applyWrites (s : FGFDMExec) (ws : List (String × ℚ)) : FGFDMExec :=
  ws.foldl (fun a kv => FGFDMExec.setPropertyValue a kv.1 kv.2) s

/-- The State-Vector trajectory of n steps: before each step the next batch
of control writes is applied, then fdm.run() is invoked and the resulting
State Vector recorded. -/
def stepTrace : FGFDMExec → List (List (String × ℚ)) → Nat → List StateVector
  | _, _, 0 => []
  | s, script, n + 1 =>
      let s1 := applyWrites s (script.headD [])
      let s2 := (FGFDMExec.run s1).2
      s2.stateVec :: stepTrace s2 script.tail n

/-- The executive after n scripted steps (same stepping as stepTrace,
returning the final state). -/
def evolveScript : FGFDMExec → List (List (String × ℚ)) → Nat → FGFDMExec
  | s, _, 0 => s
  | s, script, n + 1 =>
      evolveScript (FGFDMExec.run (applyWrites s (script.headD []))).2 script.tail n

/-- Load-then-initialize on a fresh executive: loadModel from the library,
store the initial condition, runIC. -/
def setupFDM (lib : List (String × AircraftDef)) (name : String)
    (ic : InitialCondition) : FGFDMExec :=
  let s1 := (FGFDMExec.loadModel lib newFDM name).2
  (FGFDMExec.runIC { s1 with ic := ic }).2

/-- Load-then-initialize directly from a definition (the fixed aircraft of
spec §8). -/
def initFromDef (d : AircraftDef) (ic : InitialCondition) : FGFDMExec :=
  (FGFDMExec.runIC { newFDM with aircraft := some d, ic := ic }).2

/-- The property registry after setBrakes: the left write then the right
write (index.ts:511-514), nothing else. -/
def afterBrakes (f : FGFDMExec) (v : ℚ) : FGFDMExec :=
  FGFDMExec.setPropertyValue
    (FGFDMExec.setPropertyValue f "fcs/left-brake-cmd-norm" v)
    "fcs/right-brake-cmd-norm" v

/-- A small concrete aircraft definition for witnesses. -/
def c172 : AircraftDef := { name := "c172x", wingArea := 174, emptyWeight := 1450 }

/-- A second concrete aircraft definition for witnesses. -/
def x15 : AircraftDef := { name := "x15", wingArea := 200, emptyWeight := 14600 }

/-- A one-aircraft library. -/
def lib1 : List (String × AircraftDef) := [("c172x", c172)]

/-- A differently ordered library agreeing with lib1 on "c172x". -/
def lib2 : List (String × AircraftDef) := [("x15", x15), ("c172x", c172)]

/-- A held executive. -/
def sHeld : FGFDMExec := FGFDMExec.hold newFDM

/-- An executive whose trim residual cannot reach tolerance within the cap:
halving 10^18 sixty times still leaves a residual above 1/1000. -/
def sStiff : FGFDMExec :=
  { newFDM with stateVec := { newFDM.stateVec with velW := 1000000000000000000 } }

/-- An executive with the landing gear half-way through transit. -/
def fGearMid : FGFDMExec :=
  FGFDMExec.setPropertyValue newFDM "gear/gear-pos-norm" (1 / 2)

/-! Helper lemmas shared by the claim theorems. -/

theorem assocFind_cons {α : Type} (p k : String) (v : α) (l : List (String × α)) :
    assocFind p ((k, v) :: l) = if k = p then some v else assocFind p l := rfl

theorem stepFrame_ic (s : FGFDMExec) : (stepFrame s).ic = s.ic := rfl

theorem stepFrame_aircraft (s : FGFDMExec) : (stepFrame s).aircraft = s.aircraft := rfl

theorem stepFrame_dt (s : FGFDMExec) : (stepFrame s).dt = s.dt := rfl

theorem stepFrame_holding (s : FGFDMExec) : (stepFrame s).holding = s.holding := rfl

theorem stepFrame_simTime (s : FGFDMExec) : (stepFrame s).simTime = s.simTime + s.dt := rfl

theorem run_snd_ic (s : FGFDMExec) : (FGFDMExec.run s).2.ic = s.ic := by
  unfold FGFDMExec.run
  by_cases h : s.holding <;> simp [h, stepFrame_ic]

theorem run_snd_aircraft (s : FGFDMExec) : (FGFDMExec.run s).2.aircraft = s.aircraft := by
  unfold FGFDMExec.run
  by_cases h : s.holding <;> simp [h, stepFrame_aircraft]

theorem setPropertyValue_ic (s : FGFDMExec) (p : String) (v : ℚ) :
    (FGFDMExec.setPropertyValue s p v).ic = s.ic := rfl

theorem setPropertyValue_aircraft (s : FGFDMExec) (p : String) (v : ℚ) :
    (FGFDMExec.setPropertyValue s p v).aircraft = s.aircraft := rfl

theorem applyWrites_ic :
    ∀ (ws : List (String × ℚ)) (s : FGFDMExec), (applyWrites s ws).ic = s.ic := by
  intro ws
  induction ws with
  | nil => intro s; rfl
  | cons kv rest ih =>
      intro s
      have h := ih (FGFDMExec.setPropertyValue s kv.1 kv.2)
      simpa [applyWrites] using h

theorem applyWrites_aircraft :
    ∀ (ws : List (String × ℚ)) (s : FGFDMExec), (applyWrites s ws).aircraft = s.aircraft := by
  intro ws
  induction ws with
  | nil => intro s; rfl
  | cons kv rest ih =>
      intro s
      have h := ih (FGFDMExec.setPropertyValue s kv.1 kv.2)
      simpa [applyWrites] using h

theorem evolveScript_preserves :
    ∀ (n : Nat) (script : List (List (String × ℚ))) (s : FGFDMExec),
      (evolveScript s script n).ic = s.ic ∧ (evolveScript s script n).aircraft = s.aircraft := by
  intro n
  induction n with
  | zero => intro script s; exact ⟨rfl, rfl⟩
  | succ n ih =>
      intro script s
      simp only [evolveScript]
      obtain ⟨h1, h2⟩ := ih script.tail (FGFDMExec.run (applyWrites s (script.headD []))).2
      constructor
      · rw [h1, run_snd_ic, applyWrites_ic]
      · rw [h2, run_snd_aircraft, applyWrites_aircraft]

theorem trimLoop_some_converged :
    ∀ (n : Nat) (s s2 : FGFDMExec), trimLoop n s = some s2 → trimConverged s2 = true := by
  intro n
  induction n with
  | zero => intro s s2 h; simp [trimLoop] at h
  | succ n ih =>
      intro s s2 h
      by_cases hc : trimConverged s = true
      · simp only [trimLoop, hc, if_true] at h
        cases h
        exact hc
      · simp only [trimLoop, hc, if_false, Bool.false_eq_true] at h
        exact ih _ _ h

theorem runAux_post :
    ∀ (n : Nat) (s : FGFDMExec) (endT : ℚ), 0 < s.dt →
      endT - s.simTime ≤ (n : ℚ) * s.dt →
      endT ≤ (runAux n s endT).simTime ∨ (runAux n s endT).holding = true := by
  intro n
  induction n with
  | zero =>
      intro s endT hdt hb
      left
      simp only [runAux]
      push_cast at hb
      linarith
  | succ n ih =>
      intro s endT hdt hb
      by_cases hg : s.simTime < endT
      · cases hh : s.holding with
        | true =>
            have hr : FGFDMExec.run s = (false, s) := by simp [FGFDMExec.run, hh]
            have he : runAux (n + 1) s endT = s := by
              simp only [runAux, if_pos hg, hr]
            rw [he]
            right
            exact hh
        | false =>
            have hr : FGFDMExec.run s = (true, stepFrame s) := by simp [FGFDMExec.run, hh]
            have he : runAux (n + 1) s endT = runAux n (stepFrame s) endT := by
              simp only [runAux, if_pos hg, hr]
            rw [he]
            apply ih
            · rw [stepFrame_dt]; exact hdt
            · rw [stepFrame_simTime, stepFrame_dt]
              push_cast at hb ⊢
              nlinarith [hdt]
      · have he : runAux (n + 1) s endT = s := by
          simp only [runAux, if_neg hg]
        rw [he]
        left
        linarith

/-! Claim theorems. -/

/-- C1 (counterexample): the interface fixed by the source returns a plain
double from getPropertyValue, so no return value is distinguishable from
every valid stored double: the concrete executive holding a valid zero at
"position/h-sl-ft" yields the very same 0 for the unknown path
"no/such/path", and no candidate not-found sentinel can differ from every
value a present property holds, since any double is storable. -/
theorem property_miss_not_distinguishable_cx :
    FGFDMExec.hasNode (FGFDMExec.setPropertyValue newFDM "position/h-sl-ft" 0)
        "no/such/path" = false
    ∧ FGFDMExec.getPropertyValue (FGFDMExec.setPropertyValue newFDM "position/h-sl-ft" 0)
        "no/such/path" = 0
    ∧ FGFDMExec.getPropertyValue (FGFDMExec.setPropertyValue newFDM "position/h-sl-ft" 0)
        "position/h-sl-ft" = 0
    ∧ ¬ ∃ nf : ℚ, ∀ (s : FGFDMExec) (p : String),
          FGFDMExec.hasNode s p = true → FGFDMExec.getPropertyValue s p ≠ nf := by
  refine ⟨rfl, rfl, rfl, ?_⟩
  rintro ⟨nf, h⟩
  exact h (FGFDMExec.setPropertyValue newFDM "aero/alpha-deg" nf) "aero/alpha-deg" rfl rfl

/-- C1 (amended): property access is total — for an unknown path,
getPropertyValue returns the plain double default 0 (not distinguishable
from a valid zero), setPropertyValue silently creates the node and returns
no outcome, and the wrapper calls forward both without any failure. -/
theorem property_access_total_amended :
    ∀ (s : FGFDMExec) (p : String) (v : ℚ),
      FGFDMExec.hasNode s p = false →
      FGFDMExec.getPropertyValue s p = 0
      ∧ FGFDMExec.hasNode (FGFDMExec.setPropertyValue s p v) p = true
      ∧ FGFDMExec.getPropertyValue (FGFDMExec.setPropertyValue s p v) p = v
      ∧ JSBSim.getProperty (JSBSim.mk (some s)) p
          = Except.ok (FGFDMExec.getPropertyValue s p)
      ∧ JSBSim.setProperty (JSBSim.mk (some s)) p v
          = Except.ok (JSBSim.mk (some (FGFDMExec.setPropertyValue s p v))) := by
  intro s p v h
  cases hfind : assocFind p s.props with
  | some w =>
      exfalso
      unfold FGFDMExec.hasNode at h
      rw [hfind] at h
      simp at h
  | none =>
      refine ⟨?_, ?_, ?_, rfl, rfl⟩
      · unfold FGFDMExec.getPropertyValue
        rw [hfind]
        rfl
      · unfold FGFDMExec.hasNode FGFDMExec.setPropertyValue
        simp [assocFind]
      · unfold FGFDMExec.getPropertyValue FGFDMExec.setPropertyValue
        simp [assocFind]

/-- C1 (amended, witness): concrete unknown path on a fresh executive. -/
theorem property_access_total_amended_witness :
    FGFDMExec.hasNode newFDM "no/such/path" = false
    ∧ FGFDMExec.getPropertyValue newFDM "no/such/path" = 0 :=
  ⟨rfl, (property_access_total_amended newFDM "no/such/path" 5 rfl).1⟩

/-- C3: while holding() is true (the Held state), run() performs no model
stepping, leaves the clock and the whole executive state unchanged, and
returns the not-advanced signal false; the wrapper's step() surfaces the
same pair. -/
theorem run_noop_while_held :
    ∀ (s : FGFDMExec), s.holding = true →
      FGFDMExec.run s = (false, s)
      ∧ (FGFDMExec.run s).2.simTime = s.simTime
      ∧ JSBSim.step (JSBSim.mk (some s)) = Except.ok (false, JSBSim.mk (some s)) := by
  intro s h
  have hr : FGFDMExec.run s = (false, s) := by simp [FGFDMExec.run, h]
  refine ⟨hr, by rw [hr], ?_⟩
  simp [JSBSim.step, hr]

/-- C3 (witness): a concretely held executive. -/
theorem run_noop_while_held_witness :
    sHeld.holding = true ∧ FGFDMExec.run sHeld = (false, sHeld) :=
  ⟨rfl, (run_noop_while_held sHeld rfl).1⟩

/-- C10: isLandingGearDown (position > 0.99) and isLandingGearUp
(position < 0.01) are never simultaneously true, and for any gear position
inside [0.01, 0.99] both report false (gear in transit). -/
theorem gear_down_up_exclusive :
    ∀ (f1 f2 : FGFDMExec),
      1 / 100 ≤ FGFDMExec.getPropertyValue f2 "gear/gear-pos-norm" →
      FGFDMExec.getPropertyValue f2 "gear/gear-pos-norm" ≤ 99 / 100 →
      ¬ (JSBSim.isLandingGearDown (JSBSim.mk (some f1)) = Except.ok true
          ∧ JSBSim.isLandingGearUp (JSBSim.mk (some f1)) = Except.ok true)
      ∧ JSBSim.isLandingGearDown (JSBSim.mk (some f2)) = Except.ok false
      ∧ JSBSim.isLandingGearUp (JSBSim.mk (some f2)) = Except.ok false := by
  intro f1 f2 h1 h2
  refine ⟨?_, ?_, ?_⟩
  · rintro ⟨hd, hu⟩
    simp only [JSBSim.isLandingGearDown, JSBSim.isLandingGearUp,
      JSBSim.getLandingGearPosition, JSBSim.getProperty, Except.ok.injEq,
      decide_eq_true_eq] at hd hu
    linarith
  · simp only [JSBSim.isLandingGearDown, JSBSim.getLandingGearPosition,
      JSBSim.getProperty, Except.ok.injEq, decide_eq_false_iff_not, not_lt]
    linarith
  · simp only [JSBSim.isLandingGearUp, JSBSim.getLandingGearPosition,
      JSBSim.getProperty, Except.ok.injEq, decide_eq_false_iff_not, not_lt]
    linarith

/-- C10 (witness): landing gear half-way through transit reports neither
down nor up. -/
theorem gear_down_up_exclusive_witness :
    JSBSim.isLandingGearDown (JSBSim.mk (some fGearMid)) = Except.ok false
    ∧ JSBSim.isLandingGearUp (JSBSim.mk (some fGearMid)) = Except.ok false :=
  (gear_down_up_exclusive fGearMid fGearMid
    (by
      have h : FGFDMExec.getPropertyValue fGearMid "gear/gear-pos-norm" = 1 / 2 := rfl
      rw [h]; norm_num)
    (by
      have h : FGFDMExec.getPropertyValue fGearMid "gear/gear-pos-norm" = 1 / 2 := rfl
      rw [h]; norm_num)).2

/-- C2: doTrim always yields either a success outcome (a state satisfying the
convergence test) or the distinct TrimFailureError outcome; whenever the
residuals do not converge within the bounded iteration cap, the
trim-failure outcome is reported to the caller — the structurally bounded
iteration cannot loop forever or return nothing. -/
theorem doTrim_success_or_trimFailure :
    ∀ (s1 s2 : FGFDMExec) (mode : Int),
      trimLoop trimMaxIterations s2 = none →
      ((∃ s3, FGFDMExec.doTrim s1 mode = Except.ok s3 ∧ trimConverged s3 = true)
        ∨ FGFDMExec.doTrim s1 mode = Except.error (JSBError.trimFailureError "Trim Failed"))
      ∧ FGFDMExec.doTrim s2 mode = Except.error (JSBError.trimFailureError "Trim Failed") := by
  intro s1 s2 mode h2
  constructor
  · cases hl : trimLoop trimMaxIterations s1 with
    | some s3 =>
        left
        refine ⟨s3, ?_, trimLoop_some_converged _ _ _ hl⟩
        unfold FGFDMExec.doTrim
        rw [hl]
    | none =>
        right
        unfold FGFDMExec.doTrim
        rw [hl]
  · unfold FGFDMExec.doTrim
    rw [h2]

/-- A residual larger than the tolerance scaled by 2^n cannot converge
within n halving iterations. -/
theorem trimLoop_none_of_large_residual :
    ∀ (n : Nat) (s : FGFDMExec), trimTolerance * 2 ^ n < s.stateVec.velW →
      trimLoop n s = none := by
  intro n
  induction n with
  | zero => intro s _; rfl
  | succ n ih =>
      intro s h
      have htol : (0 : ℚ) < trimTolerance := by norm_num [trimTolerance]
      have hp : (1 : ℚ) ≤ 2 ^ (n + 1) := one_le_pow₀ (by norm_num)
      have hw : trimTolerance < s.stateVec.velW := by
        have h1 : trimTolerance * 1 ≤ trimTolerance * 2 ^ (n + 1) :=
          mul_le_mul_of_nonneg_left hp (le_of_lt htol)
        rw [mul_one] at h1
        linarith
      have hc : trimConverged s = false := by
        unfold trimConverged
        apply decide_eq_false
        rw [not_le]
        unfold trimResidual
        exact lt_of_lt_of_le hw (le_max_left _ _)
      simp only [trimLoop, hc, Bool.false_eq_true, if_false]
      apply ih
      have hv : (trimStep s).stateVec.velW = s.stateVec.velW / 2 := rfl
      rw [hv]
      rw [pow_succ] at h
      linarith

/-- C2 (witness): a residual too large to converge within the cap surfaces
the trim-failure outcome. -/
theorem doTrim_success_or_trimFailure_witness :
    FGFDMExec.doTrim sStiff 0 = Except.error (JSBError.trimFailureError "Trim Failed") :=
  (doTrim_success_or_trimFailure newFDM sStiff 0
    (trimLoop_none_of_large_residual trimMaxIterations sStiff
      (by
        have hv : sStiff.stateVec.velW = 1000000000000000000 := rfl
        rw [hv]
        norm_num [trimTolerance, trimMaxIterations]))).2

/-- C6: loadModel on a name the library cannot resolve reports false and
leaves the executive exactly as it was (in particular still Unloaded when it
was Unloaded); a subsequent loadModel with a resolvable name on the same
executive succeeds; the wrapper's loadAircraft surfaces the same failure
without mutation. -/
theorem loadModel_missing_fails_safely :
    ∀ (lib : List (String × AircraftDef)) (s : FGFDMExec) (bad good : String)
      (d : AircraftDef),
      assocFind bad lib = none →
      assocFind good lib = some d →
      FGFDMExec.loadModel lib s bad = (false, s)
      ∧ FGFDMExec.loadModel lib (FGFDMExec.loadModel lib s bad).2 good
          = (true, { s with aircraft := some d })
      ∧ JSBSim.loadAircraft lib (JSBSim.mk (some s)) bad
          = Except.ok (false, JSBSim.mk (some s)) := by
  intro lib s bad good d hb hg
  have h1 : FGFDMExec.loadModel lib s bad = (false, s) := by
    unfold FGFDMExec.loadModel
    rw [hb]
  refine ⟨h1, ?_, ?_⟩
  · rw [h1]
    unfold FGFDMExec.loadModel
    rw [hg]
  · simp [JSBSim.loadAircraft, h1]

/-- C6 (witness): a missing name fails and the valid name still loads
afterwards, on the concrete one-aircraft library. -/
theorem loadModel_missing_fails_safely_witness :
    FGFDMExec.loadModel lib1 newFDM "b747" = (false, newFDM)
    ∧ FGFDMExec.loadModel lib1 (FGFDMExec.loadModel lib1 newFDM "b747").2 "c172x"
        = (true, { newFDM with aircraft := some c172 }) :=
  ⟨(loadModel_missing_fails_safely lib1 newFDM "b747" "c172x" c172 rfl rfl).1,
   (loadModel_missing_fails_safely lib1 newFDM "b747" "c172x" c172 rfl rfl).2.1⟩

/-- C9: setBrakes v is exactly the composition of setLeftBrake v and
setRightBrake v: afterwards the left and right brake command properties both
read v, while the center brake property and every other property path — and
the State Vector and clock — are unchanged. -/
theorem setBrakes_left_right_only :
    ∀ (f : FGFDMExec) (v : ℚ) (p : String),
      p ≠ "fcs/left-brake-cmd-norm" →
      p ≠ "fcs/right-brake-cmd-norm" →
      JSBSim.setBrakes (JSBSim.mk (some f)) v
          = (JSBSim.setLeftBrake (JSBSim.mk (some f)) v).bind
              (fun j1 => JSBSim.setRightBrake j1 v)
      ∧ JSBSim.setBrakes (JSBSim.mk (some f)) v
          = Except.ok (JSBSim.mk (some (afterBrakes f v)))
      ∧ FGFDMExec.getPropertyValue (afterBrakes f v) "fcs/left-brake-cmd-norm" = v
      ∧ FGFDMExec.getPropertyValue (afterBrakes f v) "fcs/right-brake-cmd-norm" = v
      ∧ FGFDMExec.getPropertyValue (afterBrakes f v) "fcs/center-brake-cmd-norm"
          = FGFDMExec.getPropertyValue f "fcs/center-brake-cmd-norm"
      ∧ FGFDMExec.getPropertyValue (afterBrakes f v) p = FGFDMExec.getPropertyValue f p
      ∧ (afterBrakes f v).stateVec = f.stateVec
      ∧ (afterBrakes f v).simTime = f.simTime := by
  intro f v p hl hr
  have hleft : FGFDMExec.getPropertyValue (afterBrakes f v) "fcs/left-brake-cmd-norm" = v := by
    unfold afterBrakes FGFDMExec.getPropertyValue FGFDMExec.setPropertyValue
    rw [assocFind_cons, if_neg (by decide), assocFind_cons, if_pos rfl]
    rfl
  have hother : ∀ (q : String), q ≠ "fcs/left-brake-cmd-norm" →
      q ≠ "fcs/right-brake-cmd-norm" →
      FGFDMExec.getPropertyValue (afterBrakes f v) q = FGFDMExec.getPropertyValue f q := by
    intro q hq1 hq2
    unfold afterBrakes FGFDMExec.getPropertyValue FGFDMExec.setPropertyValue
    rw [assocFind_cons, if_neg (Ne.symm hq2), assocFind_cons, if_neg (Ne.symm hq1)]
  refine ⟨rfl, rfl, hleft, ?_, ?_, hother p hl hr, rfl, rfl⟩
  · unfold afterBrakes FGFDMExec.getPropertyValue FGFDMExec.setPropertyValue
    rw [assocFind_cons, if_pos rfl]
    rfl
  · exact hother "fcs/center-brake-cmd-norm" (by decide) (by decide)

/-- C9 (witness): concrete braking on a fresh executive, with the gear
position path standing in for an arbitrary unrelated property. -/
theorem setBrakes_left_right_only_witness :
    FGFDMExec.getPropertyValue (afterBrakes newFDM 1) "fcs/left-brake-cmd-norm" = 1
    ∧ FGFDMExec.getPropertyValue (afterBrakes newFDM 1) "fcs/center-brake-cmd-norm"
        = FGFDMExec.getPropertyValue newFDM "fcs/center-brake-cmd-norm"
    ∧ FGFDMExec.getPropertyValue (afterBrakes newFDM 1) "gear/gear-pos-norm"
        = FGFDMExec.getPropertyValue newFDM "gear/gear-pos-norm" :=
  ⟨(setBrakes_left_right_only newFDM 1 "gear/gear-pos-norm" (by decide) (by decide)).2.2.1,
   (setBrakes_left_right_only newFDM 1 "gear/gear-pos-norm" (by decide) (by decide)).2.2.2.2.1,
   (setBrakes_left_right_only newFDM 1 "gear/gear-pos-norm" (by decide) (by decide)).2.2.2.2.2.1⟩

/-- C4: determinism — the State-Vector trajectory of n scripted steps is a
function of the resolved aircraft definition, the initial condition and the
control-write script alone: two executives set up through different
libraries agreeing on the definition produce identical trajectories, and
the wrapper's realTime pacing flag has no effect on the simulation state. -/
theorem trajectory_deterministic :
    ∀ (libA libB : List (String × AircraftDef)) (name : String) (ic : InitialCondition)
      (script : List (List (String × ℚ))) (n : Nat) (f : FGFDMExec) (d : ℚ)
      (rt1 rt2 : Bool),
      assocFind name libA = assocFind name libB →
      stepTrace (setupFDM libA name ic) script n
          = stepTrace (setupFDM libB name ic) script n
      ∧ JSBSim.run (JSBSim.mk (some f)) d rt1 = JSBSim.run (JSBSim.mk (some f)) d rt2 := by
  intro libA libB name ic script n f d rt1 rt2 h
  constructor
  · have hs : setupFDM libA name ic = setupFDM libB name ic := by
      unfold setupFDM FGFDMExec.loadModel
      rw [h]
    rw [hs]
  · rfl

/-- C4 (witness): the same aircraft resolved through two different
libraries yields the same three-step trajectory. -/
theorem trajectory_deterministic_witness :
    assocFind "c172x" lib1 = assocFind "c172x" lib2
    ∧ stepTrace (setupFDM lib1 "c172x" defaultIC) [[("fcs/elevator-cmd-norm", 1 / 10)]] 3
        = stepTrace (setupFDM lib2 "c172x" defaultIC) [[("fcs/elevator-cmd-norm", 1 / 10)]] 3 :=
  ⟨rfl, (trajectory_deterministic lib1 lib2 "c172x" defaultIC
      [[("fcs/elevator-cmd-norm", 1 / 10)]] 3 newFDM (1 / 2) false true rfl).1⟩

/-- C5: after any number of scripted steps, resetToInitialConditions
followed by runIC reproduces exactly the State Vector the original
load-then-initialize sequence produced, for the same aircraft definition and
initial-condition inputs. -/
theorem reset_runIC_roundtrip :
    ∀ (d : AircraftDef) (ic : InitialCondition) (script : List (List (String × ℚ)))
      (n : Nat),
      (FGFDMExec.runIC (FGFDMExec.resetToInitialConditions
          (evolveScript (initFromDef d ic) script n))).2.stateVec
        = (initFromDef d ic).stateVec := by
  intro d ic script n
  obtain ⟨hic, hair⟩ := evolveScript_preserves n script (initFromDef d ic)
  have l1 : (FGFDMExec.runIC (FGFDMExec.resetToInitialConditions
      (evolveScript (initFromDef d ic) script n))).2.stateVec
      = icSolve (evolveScript (initFromDef d ic) script n).ic
          (evolveScript (initFromDef d ic) script n).aircraft := rfl
  rw [l1, hic, hair]
  rfl

/-- The chosen fuel covers the whole requested duration: the remaining time
never exceeds fuel times the timestep. -/
theorem runFuel_sufficient (f : FGFDMExec) (d : ℚ) (hd : 0 ≤ d) (hdt : 0 < f.dt) :
    (f.simTime + d) - f.simTime ≤ (runFuel f d : ℚ) * f.dt := by
  have hsimp : (f.simTime + d) - f.simTime = d := by ring
  rw [hsimp]
  have h1 : d / f.dt ≤ ((Int.ceil (d / f.dt) : ℤ) : ℚ) := Int.le_ceil _
  have h2 : ((Int.ceil (d / f.dt) : ℤ) : ℚ) ≤ (((Int.ceil (d / f.dt)).toNat : ℕ) : ℚ) := by
    exact_mod_cast Int.self_le_toNat _
  have h3 : d ≤ (((Int.ceil (d / f.dt)).toNat : ℕ) : ℚ) * f.dt := by
    have h4 := mul_le_mul_of_nonneg_right (le_trans h1 h2) (le_of_lt hdt)
    rwa [div_mul_cancel₀ _ (ne_of_gt hdt)] at h4
  have h5 : ((runFuel f d : ℕ) : ℚ) = (((Int.ceil (d / f.dt)).toNat : ℕ) : ℚ) + 1 := by
    unfold runFuel FGFDMExec.getDeltaT
    push_cast
    ring
  rw [h5]
  nlinarith [hdt, h3]

/-- C7: JSBSim.run(duration, realTime) is exactly the loop of single-step
fdm.run() invocations guarded by getSimTime() < start + duration: the body
recurses on a true step and stops immediately on a false step, the loop
exits as soon as the guard fails, every true step advances the clock by the
fixed timestep, and with the stated positive timestep the loop terminates —
afterwards either the clock has covered the duration or a step reported
false (the executive is Held). -/
theorem run_duration_is_step_loop :
    ∀ (f g1 g2 : FGFDMExec) (d endT1 endT2 : ℚ) (rt : Bool) (n m : Nat),
      0 ≤ d → 0 < f.dt →
      g1.simTime < endT1 →
      ¬ g2.simTime < endT2 →
      (FGFDMExec.run g1).1 = true →
      JSBSim.run (JSBSim.mk (some f)) d rt
          = Except.ok (JSBSim.mk (some (runAux (runFuel f d) f (f.simTime + d))))
      ∧ runAux (n + 1) g1 endT1
          = (if (FGFDMExec.run g1).1 then runAux n (FGFDMExec.run g1).2 endT1
             else (FGFDMExec.run g1).2)
      ∧ runAux m g2 endT2 = g2
      ∧ (FGFDMExec.run g1).2.simTime = g1.simTime + g1.dt
      ∧ (f.simTime + d ≤ (runAux (runFuel f d) f (f.simTime + d)).simTime
          ∨ (runAux (runFuel f d) f (f.simTime + d)).holding = true) := by
  intro f g1 g2 d endT1 endT2 rt n m hd hdt hg1 hg2 hadv
  refine ⟨rfl, ?_, ?_, ?_, ?_⟩
  · have hunf : runAux (n + 1) g1 endT1
        = (match FGFDMExec.run g1 with
           | (true, s2) => runAux n s2 endT1
           | (false, s2) => s2) := by
      simp only [runAux, if_pos hg1]
    rcases hr : FGFDMExec.run g1 with ⟨b, s2⟩
    rw [hunf, hr]
    cases b <;> simp
  · cases m with
    | zero => rfl
    | succ m => simp only [runAux, if_neg hg2]
  · cases hh : g1.holding with
    | true =>
        exfalso
        have hfalse : FGFDMExec.run g1 = (false, g1) := by simp [FGFDMExec.run, hh]
        rw [hfalse] at hadv
        simp at hadv
    | false =>
        have hrr : FGFDMExec.run g1 = (true, stepFrame g1) := by simp [FGFDMExec.run, hh]
        rw [hrr]
        exact stepFrame_simTime g1
  · exact runAux_post (runFuel f d) f (f.simTime + d) hdt (runFuel_sufficient f d hd hdt)

/-- C7 (witness): half a second on a fresh executive with the default
1/120 s timestep. -/
theorem run_duration_is_step_loop_witness :
    (0 : ℚ) ≤ 1 / 2 ∧ 0 < newFDM.dt
    ∧ JSBSim.run (JSBSim.mk (some newFDM)) (1 / 2) false
        = Except.ok (JSBSim.mk (some
            (runAux (runFuel newFDM (1 / 2)) newFDM (newFDM.simTime + 1 / 2)))) :=
  ⟨by norm_num, by norm_num [newFDM],
   (run_duration_is_step_loop newFDM newFDM newFDM (1 / 2) 1 (-1) false 3 3
      (by norm_num) (by norm_num [newFDM]) (by norm_num [newFDM]) (by norm_num [newFDM])
      (by simp [FGFDMExec.run, newFDM])).1⟩

/-- C8: on an uninitialized instance (fdm absent), every modelled public
method that touches the simulation returns the BaseError naming the missing
initialization, and produces no successor state. -/
theorem uninitialized_methods_error :
    ∀ (j : JSBSim), j.fdm = none →
      (∀ v : ℚ, JSBSim.setElevator j v = Except.error notInitErr)
      ∧ JSBSim.getFDM j = Except.error notInitErr
      ∧ JSBSim.step j = Except.error notInitErr
      ∧ (∀ (d : ℚ) (rt : Bool), JSBSim.run j d rt = Except.error notInitErr)
      ∧ (∀ p : String, JSBSim.getProperty j p = Except.error notInitErr)
      ∧ (∀ (p : String) (v : ℚ), JSBSim.setProperty j p v = Except.error notInitErr)
      ∧ JSBSim.reset j = Except.error notInitErr
      ∧ JSBSim.getTime j = Except.error notInitErr
      ∧ (∀ v : ℚ, JSBSim.setAileron j v = Except.error notInitErr)
      ∧ (∀ v : ℚ, JSBSim.setRudder j v = Except.error notInitErr)
      ∧ (∀ v : ℚ, JSBSim.setFlaps j v = Except.error notInitErr)
      ∧ (∀ v : ℚ, JSBSim.setSpeedbrakes j v = Except.error notInitErr)
      ∧ (∀ v : ℚ, JSBSim.setSpoilers j v = Except.error notInitErr)
      ∧ (∀ v : ℚ, JSBSim.setPitchTrim j v = Except.error notInitErr)
      ∧ (∀ v : ℚ, JSBSim.setRollTrim j v = Except.error notInitErr)
      ∧ (∀ v : ℚ, JSBSim.setYawTrim j v = Except.error notInitErr)
      ∧ (∀ (i : Nat) (v : ℚ), JSBSim.setThrottle j i v = Except.error notInitErr)
      ∧ (∀ (i : Nat) (v : ℚ), JSBSim.setMixture j i v = Except.error notInitErr)
      ∧ (∀ v : ℚ, JSBSim.setLeftBrake j v = Except.error notInitErr)
      ∧ (∀ v : ℚ, JSBSim.setRightBrake j v = Except.error notInitErr)
      ∧ (∀ v : ℚ, JSBSim.setCenterBrake j v = Except.error notInitErr)
      ∧ (∀ v : ℚ, JSBSim.setBrakes j v = Except.error notInitErr)
      ∧ (∀ v : ℚ, JSBSim.setSteering j v = Except.error notInitErr)
      ∧ (∀ v : ℚ, JSBSim.setLandingGear j v = Except.error notInitErr)
      ∧ JSBSim.getAltitude j = Except.error notInitErr
      ∧ JSBSim.getLatitude j = Except.error notInitErr
      ∧ JSBSim.getLongitude j = Except.error notInitErr
      ∧ JSBSim.getRoll j = Except.error notInitErr
      ∧ JSBSim.getPitch j = Except.error notInitErr
      ∧ JSBSim.getHeading j = Except.error notInitErr
      ∧ JSBSim.getTotalFuel j = Except.error notInitErr
      ∧ JSBSim.isOnGround j = Except.error notInitErr
      ∧ JSBSim.getLandingGearPosition j = Except.error notInitErr
      ∧ JSBSim.isLandingGearDown j = Except.error notInitErr
      ∧ JSBSim.isLandingGearUp j = Except.error notInitErr
      ∧ (∀ (lib : List (String × AircraftDef)) (name : String),
            JSBSim.loadAircraft lib j name = Except.error notInitErr) := by
  intro j h
  have hj : j = JSBSim.mk none := by
    cases j with
    | mk fdm =>
        cases fdm with
        | none => rfl
        | some f => simp at h
  subst hj
  exact ⟨fun v => rfl, rfl, rfl, fun d rt => rfl, fun p => rfl, fun p v => rfl, rfl, rfl,
    fun v => rfl, fun v => rfl, fun v => rfl, fun v => rfl, fun v => rfl, fun v => rfl,
    fun v => rfl, fun v => rfl, fun i v => rfl, fun i v => rfl, fun v => rfl, fun v => rfl,
    fun v => rfl, fun v => rfl, fun v => rfl, fun v => rfl, rfl, rfl, rfl, rfl, rfl, rfl,
    rfl, rfl, rfl, rfl, rfl, fun lib name => rfl⟩

/-- C8 (witness): setting the elevator before init yields the BaseError the
test suite expects. -/
theorem uninitialized_methods_error_witness :
    (JSBSim.mk none).fdm = none
    ∧ JSBSim.setElevator (JSBSim.mk none) (1 / 2) = Except.error notInitErr :=
  ⟨rfl, (uninitialized_methods_error (JSBSim.mk none) rfl).1 (1 / 2)⟩
